import Mathlib

/-!
Verification development for the vmtui repository (src/vmtui.py and
src/winvmtui.py). The Python functions relevant to the claims are shallowly
embedded as pure Lean functions over explicit models of the external world:
process outcomes, streamed reads and query results are passed in as data,
and each embedded function computes exactly what the corresponding Python
code computes from them.
-/

namespace VMTUI

/-- Prefix test on lists of characters: b is an initial segment of a. -/
def startsWith : List Char → List Char → Bool
  | _, [] => true
  | [], _ :: _ => false
  | a :: as, b :: bs => a == b && startsWith as bs

/-- Substring test on lists of characters, mirroring the Python expression
needle in hay. -/
def containsSub : List Char → List Char → Bool
  | [], needle => needle.isEmpty
  | h :: t, needle => startsWith (h :: t) needle || containsSub t needle

/-- Substring test on strings, mirroring the Python in operator. -/
def strContains (hay needle : String) : Bool :=
  containsSub hay.data needle.data

/-- Outcome of one external process invocation as seen by subprocess.run:
either the process ran to completion with an exit code and captured output
streams, or an exception was raised (launch failure, or the
CalledProcessError raised on non-zero exit when checking is enabled). -/
inductive RunOutcome where
  | ran (exitCode : Int) (stdout : String) (stderr : String)
  | exn
deriving DecidableEq

/-- Embedding of run_cmd (vmtui.py lines 67 to 83 and winvmtui.py lines 42
to 52, identical bodies): with checking enabled a non-zero exit raises and
the except handler returns None; any exception returns None; otherwise the
stripped stdout is returned. Python strip is modelled by String.trim. The
source name of this helper is not a legal Lean identifier, hence runCmd. -/
def runCmd (check : Bool) (o : RunOutcome) : Option String :=
  match o with
  | RunOutcome.exn => none
  | RunOutcome.ran exitCode stdout _ =>
      if check && !(exitCode == 0) then none
      else some stdout.trim

/-- Embedding of the status defaulting in draw_header (vmtui.py lines 392 to
394): a falsy query result, None or the empty string, is replaced by the
text Not Found. -/
def headerState (q : Option String) : String :=
  match q with
  | none => "Not Found"
  | some s => if s.isEmpty then "Not Found" else s

/-- A completed external process as observed by the stream supervisors:
the streamed output lines, the contents of the stderr pipe, and the exit
code reported by poll. -/
structure Proc where
  outLines : List String
  errText : String
  exitCode : Int
deriving DecidableEq

/-- Either the process was launched and ran to completion, or launching or
streaming raised an exception carrying a message. -/
inductive LaunchResult where
  | ok (p : Proc)
  | failed (msg : String)
deriving DecidableEq

/-- Embedding of run_cmd_live (vmtui.py lines 103 to 133): stderr is merged
into stdout and only streamed to the window, the return value is the test
that the exit code is zero, and any exception yields False. No error text
is returned on either path. -/
def run_cmd_live (r : LaunchResult) : Bool :=
  match r with
  | LaunchResult.ok p => p.exitCode == 0
  | LaunchResult.failed _ => false

/-- Embedding of run_cmd_live_debug (winvmtui.py lines 68 to 96): stdout is
streamed, the stderr pipe is drained into error_buffer after exit; exit code
zero returns the pair (True, None), a non-zero exit returns (False, joined
error buffer), and an exception returns (False, str of the exception). -/
def run_cmd_live_debug (r : LaunchResult) : Bool × Option String :=
  match r with
  | LaunchResult.ok p =>
      if p.exitCode == 0 then (true, none) else (false, some p.errText)
  | LaunchResult.failed msg => (false, some msg)

/-- One read from the streaming HTTP response: either a chunk of n bytes,
where n = 0 is the empty read signalling connection close, or a raised
exception. -/
inductive ReadResult where
  | data (n : Nat)
  | err
deriving DecidableEq

/-- Embedding of the read loop of download_with_progress (vmtui.py lines 149
to 189 and winvmtui.py lines 141 to 167, same loop): chunks are read and
written until an empty read breaks the loop and the function returns True,
accumulating the downloaded byte count; an exception reaches the except
branch, which returns False. -/
def downloadLoop : List ReadResult → Nat → Bool × Nat
  | [], downloaded => (true, downloaded)
  | ReadResult.err :: _, downloaded => (false, downloaded)
  | ReadResult.data n :: rest, downloaded =>
      if n == 0 then (true, downloaded) else downloadLoop rest (downloaded + n)

/-- Embedding of download_with_progress, returning the success flag together
with the number of bytes written to the destination. The declared
Content-Length total drives only the progress bar drawing and never the
control flow, which is why the result ignores it. -/
def download_with_progress (total : Nat) (reads : List ReadResult) : Bool × Nat :=
  downloadLoop reads 0

/-- Derived predicate used to state the success characterization of the
download loop: the read stream raises an exception strictly before the
closing empty read (or the end of the stream). -/
def errBeforeClose : List ReadResult → Bool
  | [] => false
  | ReadResult.err :: _ => true
  | ReadResult.data n :: rest => if n == 0 then false else errBeforeClose rest

/-- Key events the menu loops react to. -/
inductive Key where
  | up
  | down
  | enter
  | quit
  | esc
  | timeout
  | other
deriving DecidableEq

/-- Result of one key handling step: either the menu returns an integer to
the caller, or the loop runs again with a new highlighted row. -/
inductive StepOut where
  | ret (r : Int)
  | again (row : Nat)
deriving DecidableEq

/-- Embedding of the key handling of selection_menu (vmtui.py lines 448 to
454 and winvmtui.py lines 223 to 227, same branches): the up arrow moves up
only when the row is positive, the down arrow moves down only when the row
is below the last index, ENTER returns the current row, q or ESC returns -1,
and a timeout or any other key redraws with the row unchanged. -/
def selection_menu_step (n row : Nat) (k : Key) : StepOut :=
  match k with
  | Key.up => if 0 < row then StepOut.again (row - 1) else StepOut.again row
  | Key.down =>
      if (row : Int) < (n : Int) - 1 then StepOut.again (row + 1)
      else StepOut.again row
  | Key.enter => StepOut.ret (Int.ofNat row)
  | Key.quit => StepOut.ret (-1)
  | Key.esc => StepOut.ret (-1)
  | Key.timeout => StepOut.again row
  | Key.other => StepOut.again row

/-- Row reached after a sequence of key events, tracking only the steps that
keep the loop running; a key that returns leaves the tracked row unchanged. -/
def navFold (n : Nat) (row : Nat) (ks : List Key) : Nat :=
  ks.foldl (fun r k =>
    match selection_menu_step n r k with
    | StepOut.again r2 => r2
    | StepOut.ret _ => r) row

/-- A USB device record built by the lsusb line parser in usb_menu_logic
(vmtui.py lines 466 to 468). -/
structure HostDevice where
  vid : String
  pid : String
  name : String
deriving DecidableEq

/-- The single quote character, written by code point. -/
def sq : String := String.singleton (Char.ofNat 39)

/-- Needle id=(quote)0x(vendor id)(quote) tested against the domain XML in
usb_menu_logic line 474. -/
def vidNeedle (d : HostDevice) : String := "id=" ++ sq ++ "0x" ++ d.vid ++ sq

/-- Needle id=(quote)0x(product id)(quote) tested against the domain XML in
usb_menu_logic line 474. -/
def pidNeedle (d : HostDevice) : String := "id=" ++ sq ++ "0x" ++ d.pid ++ sq

/-- The textual containment test of usb_menu_logic line 474: both the vendor
needle and the product needle occur in the descriptor blob. -/
def devAttachedTest (xml : String) (d : HostDevice) : Bool :=
  strContains xml (vidNeedle d) && strContains xml (pidNeedle d)

/-- Signature string vid:pid built in usb_menu_logic lines 475 and 479. -/
def sig (d : HostDevice) : String := d.vid ++ ":" ++ d.pid

/-- Embedding of usb_menu_logic lines 470 to 475: when the dumpxml query
returns a truthy blob, every scanned device whose two needles are both
substrings of the blob contributes its signature to attached_sigs. -/
def attached_sigs (xml : Option String) (devices : List HostDevice) :
    List String :=
  match xml with
  | none => []
  | some x =>
      if x.isEmpty then []
      else (devices.filter (fun d => devAttachedTest x d)).map sig

/-- Embedding of the attached label computed in usb_menu_logic line 480:
membership of the signature of the device in attached_sigs. -/
def is_attached (xml : Option String) (devices : List HostDevice)
    (d : HostDevice) : Bool :=
  (attached_sigs xml devices).contains (sig d)

/-- Embedding of the menu item list built in usb_menu_logic lines 477 to
485, including the placeholder row appended when no device was scanned. -/
def usb_menu_items (xml : Option String) (devices : List HostDevice) :
    List (String × Option HostDevice × Bool) :=
  let base := devices.map (fun d =>
    let att := is_attached xml devices d
    (((if att then "[ ATTACHED ]" else "[   FREE   ]") ++ " " ++ sig d
        ++ " - " ++ d.name.take 40),
     some d, att))
  if base.isEmpty then [("No USB Devices Found", none, false)] else base

/-- Embedding of the clamp at usb_menu_logic line 486: a stale row at or
past the end of the rebuilt list becomes max 0 (length - 1); truncating Nat
subtraction makes the outer max implicit. -/
def usb_clamp (row n : Nat) : Nat :=
  if n ≤ row then n - 1 else row

/-- One virsh device command as issued by usb_menu_logic line 522: the
action, the target domain, and the vendor and product ids written into the
transient descriptor file. -/
structure VirshCmd where
  action : String
  vm : String
  vid : String
  pid : String
deriving DecidableEq

/-- Embedding of usb_menu_logic line 512: detach-device when the displayed
label is attached, attach-device otherwise. -/
def toggle_action (sel_attached : Bool) : String :=
  if sel_attached then "detach-device" else "attach-device"

/-- Embedding of the ENTER branch of usb_menu_logic lines 508 to 523,
projected to the external commands it issues: the placeholder row issues
nothing, and a real device row issues exactly one virsh command carrying
the inverse action and the device ids. -/
def usb_toggle_commands (vm : String) (sel_dev : Option HostDevice)
    (sel_attached : Bool) : List VirshCmd :=
  match sel_dev with
  | none => []
  | some d => [⟨toggle_action sel_attached, vm, d.vid, d.pid⟩]

/-- Modelled from the spec: the effect of one issued attach or detach
command on the AttachmentSet of the domain, absent external interference;
attach-device inserts the signature into the set and detach-device removes
it. The external virsh tool that realises this effect is not part of the
repository. -/
def applyToggleEffect (A : Finset String) (s : String) (action : String) :
    Finset String :=
  if action = "attach-device" then insert s A
  else if action = "detach-device" then A.erase s
  else A

/-- One user toggle of a device with signature s: the action is chosen from
the displayed label, which is membership of s in the current AttachmentSet,
and its modelled effect is applied. -/
def toggleOnce (A : Finset String) (s : String) : Finset String :=
  applyToggleEffect A s (toggle_action (decide (s ∈ A)))

/-- Embedding of the Start / Restore handler in main (vmtui.py lines 577 to
578), projected to the external commands it issues: the observed header
state is not consulted and the start command is issued unconditionally with
checking disabled. -/
def vmtui_start_commands (vm : String) (observed : Option String) :
    List (List String) :=
  [["virsh", "start", vm]]

/-- Truthiness of an Option String as Python sees a run_cmd result: None
and the empty string are falsy. -/
def optTruthy : Option String → Bool
  | none => false
  | some s => !s.isEmpty

/-- Embedding of start_existing_vm (winvmtui.py lines 303 to 319), projected
to the external start commands it issues: a domain whose state query is
truthy and contains running gets no start command, a falsy dominfo result
returns early with an error box and no start command, and otherwise exactly
the start command is issued. -/
def start_existing_vm_commands (vm : String) (domstate dominfo : Option String) :
    List (List String) :=
  if optTruthy domstate && strContains (domstate.getD "") "running" then []
  else if !optTruthy dominfo then []
  else [["virsh", "-c", "qemu:///system", "start", vm]]

/-- Character class of the hexadecimal groups of the lsusb parser regex in
usb_menu_logic line 467. -/
def hexChar (c : Char) : Bool :=
  (decide (Char.ofNat 48 ≤ c) && decide (c ≤ Char.ofNat 57)) ||
  (decide (Char.ofNat 97 ≤ c) && decide (c ≤ Char.ofNat 102)) ||
  (decide (Char.ofNat 65 ≤ c) && decide (c ≤ Char.ofNat 70))

/-- A string matched by a one-or-more hexadecimal group of the parser regex:
non-empty and all characters hexadecimal. -/
def isHexStr (s : String) : Bool := !s.data.isEmpty && s.data.all hexChar

/-- Concrete device used by witnesses: the Logitech receiver of the spec
example. -/
def devW : HostDevice := ⟨"046d", "c52b", "Logitech USB Receiver"⟩

/-- Concrete descriptor blob used by witnesses: contains both needles of
devW. -/
def xmlW : String := "<hostdev>" ++ vidNeedle devW ++ " " ++ pidNeedle devW ++ "</hostdev>"

/-! Helper lemmas. -/

theorem contains_iff_mem (l : List String) (a : String) :
    l.contains a = true ↔ a ∈ l := by
  simp

theorem downloadLoop_success (reads : List ReadResult) :
    ∀ acc, (downloadLoop reads acc).1 = !errBeforeClose reads := by
  induction reads with
  | nil => intro acc; rfl
  | cons r t ih =>
    intro acc
    cases r with
    | err => rfl
    | data n =>
      by_cases hn : (n == 0) = true
      · simp only [downloadLoop, errBeforeClose, if_pos hn]
        rfl
      · simp only [downloadLoop, errBeforeClose, if_neg hn]
        exact ih (acc + n)

/-! Claim theorems, C4 to C8 and C10. -/

/-- Claim C4, counterexample: a process that exits with code 1 while writing
nothing to its stderr pipe makes run_cmd_live_debug return success false
paired with the empty captured error text, refuting the claimed non-empty
error text for every non-zero exit. -/
theorem C4_counterexample :
    run_cmd_live_debug (LaunchResult.ok ⟨[], "", 1⟩) = (false, some "") := by
  decide

/-- Claim C4, amended: the stream supervisors return success exactly on exit
code zero; run_cmd_live_debug additionally returns the captured stderr text
on failure, which may be empty, while run_cmd_live of vmtui returns only the
boolean; a launch exception yields failure with the exception message. -/
theorem C4_supervisor_status (p : Proc) (m : String) :
    (run_cmd_live (LaunchResult.ok p) = true ↔ p.exitCode = 0) ∧
    (p.exitCode = 0 → run_cmd_live_debug (LaunchResult.ok p) = (true, none)) ∧
    (p.exitCode ≠ 0 →
      run_cmd_live_debug (LaunchResult.ok p) = (false, some p.errText)) ∧
    run_cmd_live (LaunchResult.failed m) = false ∧
    run_cmd_live_debug (LaunchResult.failed m) = (false, some m) := by
  refine ⟨?_, ?_, ?_, rfl, rfl⟩
  · simp [run_cmd_live]
  · intro h; simp [run_cmd_live_debug, h]
  · intro h; simp [run_cmd_live_debug, h]

/-- Claim C4, witness for the amended theorem at a concrete failing
process. -/
theorem C4_witness :
    (2 : Int) ≠ 0 ∧
    run_cmd_live_debug (LaunchResult.ok ⟨["x"], "boom", 2⟩) =
      (false, some "boom") :=
  ⟨by decide, (C4_supervisor_status ⟨["x"], "boom", 2⟩ "oops").2.2.1 (by decide)⟩

/-- Claim C5, counterexample: in winvmtui, with the domain state query and
the dominfo query both returning no result (the target is not found),
start_existing_vm issues no external start command at all, refuting the
claim that the start command is issued regardless with no existence
pre-check. -/
theorem C5_counterexample :
    start_existing_vm_commands "windows-dev-vm" none none = [] := by
  decide

/-- Claim C5, amended: the vmtui Start / Restore handler issues the external
start command unconditionally, ignoring the observed state, with no
existence pre-check; the winvmtui start_existing_vm performs a dominfo
existence pre-check and issues no start command when the target is not
found, and issues exactly the one start command when the target exists and
is not observed running. -/
theorem C5_start_intent (vm : String) (observed ds di : Option String) :
    vmtui_start_commands vm observed = [["virsh", "start", vm]] ∧
    ((optTruthy ds && strContains (ds.getD "") "running") = true →
      start_existing_vm_commands vm ds di = []) ∧
    (optTruthy di = false → start_existing_vm_commands vm ds di = []) ∧
    ((optTruthy ds && strContains (ds.getD "") "running") = false →
      optTruthy di = true →
      start_existing_vm_commands vm ds di =
        [["virsh", "-c", "qemu:///system", "start", vm]]) := by
  refine ⟨rfl, ?_, ?_, ?_⟩
  · intro h
    simp [start_existing_vm_commands, h]
  · intro h
    simp only [start_existing_vm_commands, h]
    split
    · rfl
    · simp
  · intro h1 h2
    simp [start_existing_vm_commands, h1, h2]

/-- Claim C5, witness for the amended theorem: a stopped existing domain
receives exactly the start command. -/
theorem C5_witness :
    ((optTruthy (some "shut off") &&
        strContains ((some "shut off").getD "") "running") = false ∧
      optTruthy (some "Id: 1") = true) ∧
    start_existing_vm_commands "vm1" (some "shut off") (some "Id: 1") =
      [["virsh", "-c", "qemu:///system", "start", "vm1"]] :=
  ⟨⟨by decide, by decide⟩,
    (C5_start_intent "vm1" none (some "shut off") (some "Id: 1")).2.2.2
      (by decide) (by decide)⟩

/-- Claim C6, counterexample: with a declared total of 10 bytes, a stream
that delivers a single 5 byte chunk and then closes makes the fetcher
return success although only 5 of the 10 declared bytes were written,
refuting the claim that success requires the full declared size. -/
theorem C6_counterexample :
    (download_with_progress 10 [ReadResult.data 5]).1 = true ∧
    (download_with_progress 10 [ReadResult.data 5]).2 ≠ 10 := by
  decide

/-- Claim C6, amended: the fetcher reports success exactly when the stream
ends, by connection close or exhaustion, without a read exception before the
close, even if fewer bytes than the declared total were consumed; the
declared total drives only the progress bar and the result does not depend
on it. -/
theorem C6_download_success (total : Nat) (reads : List ReadResult) :
    ((download_with_progress total reads).1 = true ↔
      errBeforeClose reads = false) ∧
    download_with_progress total reads = download_with_progress 0 reads := by
  refine ⟨?_, rfl⟩
  rw [show (download_with_progress total reads).1 = !errBeforeClose reads
    from downloadLoop_success reads 0]
  cases errBeforeClose reads <;> simp

/-- Claim C7, counterexample: on an empty item list the confirm key does
return to the caller and yields the selection index 0, refuting the claim
that cancel is the only input that returns and that confirm never yields a
selection index. -/
theorem C7_counterexample :
    selection_menu_step 0 0 Key.enter = StepOut.ret 0 := by
  decide

/-- Claim C7, amended: a menu over an empty item list renders and loops
without error; the navigation keys and a timeout leave the row unchanged,
cancel returns the sentinel -1, and confirm returns the current row 0 even
though the list has no item at index 0. -/
theorem C7_empty_menu :
    selection_menu_step 0 0 Key.up = StepOut.again 0 ∧
    selection_menu_step 0 0 Key.down = StepOut.again 0 ∧
    selection_menu_step 0 0 Key.timeout = StepOut.again 0 ∧
    selection_menu_step 0 0 Key.other = StepOut.again 0 ∧
    selection_menu_step 0 0 Key.quit = StepOut.ret (-1) ∧
    selection_menu_step 0 0 Key.esc = StepOut.ret (-1) ∧
    selection_menu_step 0 0 Key.enter = StepOut.ret 0 := by
  decide

/-- Claim C8: with checking enabled, the command gateway returns the absent
value on a launch exception and on any non-zero exit, and returns the
trimmed standard output on a zero exit. -/
theorem C8_gateway_check (code : Int) (out err : String) :
    runCmd true RunOutcome.exn = none ∧
    (code ≠ 0 → runCmd true (RunOutcome.ran code out err) = none) ∧
    runCmd true (RunOutcome.ran 0 out err) = some out.trim := by
  refine ⟨rfl, ?_, ?_⟩
  · intro h
    simp [runCmd, h]
  · simp [runCmd]

/-- Claim C8, witness at a concrete non-zero exit. -/
theorem C8_witness :
    (3 : Int) ≠ 0 ∧ runCmd true (RunOutcome.ran 3 " hi " "e") = none :=
  ⟨by decide, (C8_gateway_check 3 " hi " "e").2.1 (by decide)⟩

/-- Claim C10: with checking disabled, a completed command returns its
trimmed standard output whatever the exit code, the absent value arises only
from an exception, and the header treats the absent value and the empty
output identically. -/
theorem C10_gateway_nocheck (code : Int) (out err : String) (o : RunOutcome) :
    runCmd false (RunOutcome.ran code out err) = some out.trim ∧
    (runCmd false o = none → o = RunOutcome.exn) ∧
    headerState none = headerState (some "") := by
  refine ⟨by simp [runCmd], ?_, rfl⟩
  intro h
  cases o with
  | ran c s e => simp [runCmd] at h
  | exn => rfl

/-- Claim C10, witness: a non-zero exit with checking disabled still yields
the trimmed output, and the absent value at the exception outcome. -/
theorem C10_witness :
    runCmd false RunOutcome.exn = none ∧ RunOutcome.exn = RunOutcome.exn :=
  ⟨by decide, (C10_gateway_nocheck 5 "out" "err" RunOutcome.exn).2.1 (by decide)⟩

theorem step_row_lt (n r : Nat) (hr : r < n) (k : Key) :
    (match selection_menu_step n r k with
      | StepOut.again r2 => r2
      | StepOut.ret _ => r) < n := by
  cases k with
  | up =>
    by_cases h : 0 < r
    · simp only [selection_menu_step, if_pos h]
      show r - 1 < n
      omega
    · simp only [selection_menu_step, if_neg h]
      exact hr
  | down =>
    by_cases h : (r : Int) < (n : Int) - 1
    · simp only [selection_menu_step, if_pos h]
      show r + 1 < n
      omega
    · simp only [selection_menu_step, if_neg h]
      exact hr
  | enter => exact hr
  | quit => exact hr
  | esc => exact hr
  | timeout => exact hr
  | other => exact hr

theorem navFold_lt (n : Nat) (ks : List Key) :
    ∀ r, r < n → navFold n r ks < n := by
  induction ks with
  | nil => intro r hr; simpa [navFold] using hr
  | cons k t ih =>
    intro r hr
    have h1 := step_row_lt n r hr k
    simpa [navFold, List.foldl_cons] using ih _ h1

theorem usb_menu_items_length_pos (xml : Option String)
    (devices : List HostDevice) : 0 < (usb_menu_items xml devices).length := by
  cases devices with
  | nil => simp [usb_menu_items]
  | cons d t => simp [usb_menu_items]

/-- Claim C3: for a non-empty item list, starting at row 0, the row stays in
range after any sequence of key events; moving up at row 0 and moving down
at the last row leave the row unchanged. -/
theorem C3_nav_in_range (items : List String) (h : items ≠ []) (ks : List Key) :
    navFold items.length 0 ks < items.length ∧
    selection_menu_step items.length 0 Key.up = StepOut.again 0 ∧
    selection_menu_step items.length (items.length - 1) Key.down =
      StepOut.again (items.length - 1) := by
  have hn : 0 < items.length := List.length_pos.mpr h
  refine ⟨navFold_lt items.length ks 0 hn, rfl, ?_⟩
  simp only [selection_menu_step]
  split
  · omega
  · rfl

/-- Claim C3, witness at a concrete two item list and key sequence. -/
theorem C3_witness :
    (["a", "b"] ≠ ([] : List String)) ∧
    (navFold 2 0 [Key.up, Key.down, Key.down, Key.down] < 2 ∧
      selection_menu_step 2 0 Key.up = StepOut.again 0 ∧
      selection_menu_step 2 1 Key.down = StepOut.again 1) :=
  ⟨by decide,
    C3_nav_in_range ["a", "b"] (by decide) [Key.up, Key.down, Key.down, Key.down]⟩

/-- Claim C9: on every iteration of the USB menu loop the row is clamped
against the freshly rebuilt item list before input is read, so the row used
for input handling is a valid index; when the rebuilt list is shorter than
the stale row, the row becomes the last index. -/
theorem C9_usb_row_clamped (xml : Option String) (devices : List HostDevice)
    (row : Nat) :
    usb_clamp row (usb_menu_items xml devices).length <
      (usb_menu_items xml devices).length ∧
    ((usb_menu_items xml devices).length ≤ row →
      usb_clamp row (usb_menu_items xml devices).length =
        (usb_menu_items xml devices).length - 1) := by
  have hn := usb_menu_items_length_pos xml devices
  constructor
  · unfold usb_clamp
    split <;> omega
  · intro h
    unfold usb_clamp
    rw [if_pos h]

/-- Claim C9, witness: a stale row 5 against the rebuilt placeholder list of
length 1 is clamped to 0. -/
theorem C9_witness :
    (usb_clamp 5 (usb_menu_items none []).length <
        (usb_menu_items none []).length ∧
      ((usb_menu_items none []).length ≤ 5 →
        usb_clamp 5 (usb_menu_items none []).length =
          (usb_menu_items none []).length - 1)) :=
  C9_usb_row_clamped none [] 5

theorem toggle_action_true : toggle_action true = "detach-device" := rfl

theorem toggle_action_false : toggle_action false = "attach-device" := rfl

theorem toggleOnce_mem (A : Finset String) (s : String) (h : s ∈ A) :
    toggleOnce A s = A.erase s := by
  unfold toggleOnce
  rw [decide_eq_true h, toggle_action_true]
  unfold applyToggleEffect
  rw [if_neg (by decide), if_pos rfl]

theorem toggleOnce_not_mem (A : Finset String) (s : String) (h : s ∉ A) :
    toggleOnce A s = insert s A := by
  unfold toggleOnce
  rw [decide_eq_false h, toggle_action_false]
  unfold applyToggleEffect
  rw [if_pos rfl]

/-- Claim C2: confirming a toggle on a real device row issues exactly one
external virsh command, detach-device when the displayed label is attached
and attach-device when it is free, while the placeholder row issues nothing;
and, with the modelled external effect and no interference, toggling the
same signature twice restores its original labeled state. -/
theorem C2_toggle_inverse (vm : String) (d : HostDevice) (b : Bool)
    (A : Finset String) (s : String) :
    usb_toggle_commands vm (some d) b =
      [⟨if b then "detach-device" else "attach-device", vm, d.vid, d.pid⟩] ∧
    (usb_toggle_commands vm (some d) b).length = 1 ∧
    usb_toggle_commands vm none b = [] ∧
    ((s ∈ toggleOnce (toggleOnce A s) s) ↔ s ∈ A) := by
  refine ⟨rfl, rfl, rfl, ?_⟩
  by_cases h : s ∈ A
  · rw [toggleOnce_mem A s h,
      toggleOnce_not_mem (A.erase s) s (by simp)]
    simp [h]
  · rw [toggleOnce_not_mem A s h,
      toggleOnce_mem (insert s A) s (by simp)]
    simp [h]

theorem str_data_append (s t : String) : (s ++ t).data = s.data ++ t.data := rfl

theorem colon_append_inj (a : List Char) :
    ∀ c b d : List Char, ':' ∉ a → ':' ∉ c →
      a ++ ':' :: b = c ++ ':' :: d → a = c ∧ b = d := by
  induction a with
  | nil =>
    intro c b d _ hc h
    cases c with
    | nil =>
      simp only [List.nil_append] at h
      injection h with _ h2
      exact ⟨rfl, h2⟩
    | cons y ys =>
      simp only [List.nil_append, List.cons_append] at h
      injection h with h1 _
      subst h1
      exact absurd (List.mem_cons_self _ _) hc
  | cons x xs ih =>
    intro c b d ha hc h
    cases c with
    | nil =>
      simp only [List.nil_append, List.cons_append] at h
      injection h with h1 _
      rw [h1] at ha
      exact absurd (List.mem_cons_self _ _) ha
    | cons y ys =>
      simp only [List.cons_append] at h
      injection h with h1 h2
      have ha2 : ':' ∉ xs := fun hm => ha (List.mem_cons_of_mem _ hm)
      have hc2 : ':' ∉ ys := fun hm => hc (List.mem_cons_of_mem _ hm)
      obtain ⟨e1, e2⟩ := ih ys b d ha2 hc2 h2
      exact ⟨by rw [h1, e1], e2⟩

theorem hex_no_colon (s : String) (h : isHexStr s = true) : ':' ∉ s.data := by
  intro hm
  unfold isHexStr at h
  rw [Bool.and_eq_true] at h
  have hc := List.all_eq_true.mp h.2 _ hm
  exact absurd hc (by decide)

theorem sig_inj (e d : HostDevice) (he : ':' ∉ e.vid.data)
    (hd : ':' ∉ d.vid.data) (h : sig e = sig d) :
    e.vid = d.vid ∧ e.pid = d.pid := by
  have hdata : e.vid.data ++ ':' :: e.pid.data =
      d.vid.data ++ ':' :: d.pid.data := by
    have h2 : (e.vid.data ++ [':']) ++ e.pid.data =
        (d.vid.data ++ [':']) ++ d.pid.data := congrArg String.data h
    simpa [List.append_assoc] using h2
  obtain ⟨h1, h2⟩ :=
    colon_append_inj e.vid.data d.vid.data e.pid.data d.pid.data he hd hdata
  exact ⟨String.ext h1, String.ext h2⟩

theorem strContains_nil (n : String) (h : n.data ≠ []) :
    strContains "" n = false := by
  show n.data.isEmpty = false
  cases hn : n.data with
  | nil => exact absurd hn h
  | cons c cs => rfl

theorem vidNeedle_data_ne_nil (d : HostDevice) : (vidNeedle d).data ≠ [] := by
  intro h
  have h2 : ("id=" ++ sq ++ "0x" ++ d.vid).data ++ sq.data = [] := h
  have h3 : sq.data = [] := (List.append_eq_nil.mp h2).2
  exact absurd h3 (by decide)

theorem devAttachedTest_congr (x : String) (e d : HostDevice)
    (hv : e.vid = d.vid) (hp : e.pid = d.pid) :
    devAttachedTest x e = devAttachedTest x d := by
  unfold devAttachedTest vidNeedle pidNeedle
  rw [hv, hp]

theorem usb_label_eq (x : String) (devices : List HostDevice) (d : HostDevice)
    (hmem : d ∈ devices)
    (hhex : ∀ e ∈ devices, isHexStr e.vid = true ∧ isHexStr e.pid = true) :
    is_attached (some x) devices d = devAttachedTest x d := by
  by_cases hx : x.isEmpty = true
  · have hx0 : x = "" := (String.isEmpty_iff x).mp hx
    subst hx0
    have hL : is_attached (some "") devices d = false := rfl
    have hR : devAttachedTest "" d = false := by
      unfold devAttachedTest
      rw [strContains_nil _ (vidNeedle_data_ne_nil d), Bool.false_and]
    rw [hL, hR]
  · have key : attached_sigs (some x) devices =
        (devices.filter (fun d => devAttachedTest x d)).map sig := by
      show (if x.isEmpty = true then []
          else (devices.filter (fun d => devAttachedTest x d)).map sig) =
        (devices.filter (fun d => devAttachedTest x d)).map sig
      exact if_neg hx
    unfold is_attached
    rw [key]
    cases hp : devAttachedTest x d with
    | true =>
      rw [contains_iff_mem]
      exact List.mem_map.mpr ⟨d, List.mem_filter.mpr ⟨hmem, hp⟩, rfl⟩
    | false =>
      apply Bool.eq_false_iff.mpr
      intro hc
      rw [contains_iff_mem] at hc
      obtain ⟨e, hef, hesig⟩ := List.mem_map.mp hc
      obtain ⟨hemem, hetest⟩ := List.mem_filter.mp hef
      obtain ⟨hev, hep⟩ := sig_inj e d
        (hex_no_colon _ (hhex e hemem).1) (hex_no_colon _ (hhex d hmem).1)
        hesig
      rw [devAttachedTest_congr x e d hev hep, hp] at hetest
      exact absurd hetest (by decide)

/-- Claim C1: for devices whose ids come from the hexadecimal groups of the
parser regex, a device in the scanned list is labeled attached exactly when
both its vendor needle and its product needle occur textually in the
descriptor blob, and the label depends only on the device and the blob, so
it is stable under any reordering of the device list. -/
theorem C1_attached_label (x : String) (devices : List HostDevice)
    (d : HostDevice) (hmem : d ∈ devices)
    (hhex : ∀ e ∈ devices, isHexStr e.vid = true ∧ isHexStr e.pid = true) :
    (is_attached (some x) devices d = devAttachedTest x d) ∧
    (∀ devices2 : List HostDevice, devices.Perm devices2 →
      is_attached (some x) devices d = is_attached (some x) devices2 d) := by
  refine ⟨usb_label_eq x devices d hmem hhex, ?_⟩
  intro devices2 hperm
  have hmem2 : d ∈ devices2 := hperm.mem_iff.mp hmem
  have hhex2 : ∀ e ∈ devices2, isHexStr e.vid = true ∧ isHexStr e.pid = true :=
    fun e he => hhex e (hperm.mem_iff.mpr he)
  rw [usb_label_eq x devices d hmem hhex, usb_label_eq x devices2 d hmem2 hhex2]

/-- Claim C1, witness at the Logitech receiver of the spec example against a
blob containing both of its needles. -/
theorem C1_witness :
    (devW ∈ [devW] ∧
      (∀ e ∈ [devW], isHexStr e.vid = true ∧ isHexStr e.pid = true)) ∧
    ((is_attached (some xmlW) [devW] devW = devAttachedTest xmlW devW) ∧
      (∀ devices2 : List HostDevice, [devW].Perm devices2 →
        is_attached (some xmlW) [devW] devW =
          is_attached (some xmlW) devices2 devW)) :=
  ⟨⟨by decide, by decide⟩,
    C1_attached_label xmlW [devW] devW (by decide) (by decide)⟩

end VMTUI
